import Mathlib

/-!
Shallow embedding of the ReviewMate backend's automation decision engine.

The repository ships several near-duplicate snapshots of the same server:
  * `src/server.js` (first snapshot, "S1"): runner with scope value
    "Unreplied Only", no time filter, no empty-reply check, no try/catch.
  * `src/server.js` (second snapshot, "Srv"): `getCutoffDate`, `buildPrompt`,
    `normalizeSettings`, runner with trimmed-empty-reply skip, no try/catch.
  * `src/unnamed/part_000` ("P0"): `runAutomationForUser` with a `limit = 9999`
    default time threshold and a per-location try/catch.
  * `src/unnamed/part_001` ("P1"): `/api/process-automation` inline prompt.

Timestamps are modelled as integer milliseconds since the epoch (the JS code
compares `Date` values, which compare by their millisecond value).  External
collaborators (review fetch, text generation, reply publishing) are modelled
as oracle functions returning `Except`; a JS exception is `Except.error`.
-/

namespace ReviewMate

/-- A Google review as consumed by the runners (external, read-only data).
`createTime` is `none` when the field is absent (JS `new Date(undefined)`
yields `NaN`, making every comparison false). `reviewReply` is `some _` when
the review already carries a reply object. -/
structure Review where
  name : String
  createTime : Option Int
  starRating : Option String
  comment : Option String
  reviewerDisplayName : Option String
  reviewReply : Option String
  deriving DecidableEq

/-- One per-location automation setting.  `title` and `keywords` are optional
fields used only by the P0 snapshot's prompt; the Srv snapshot's schema has
`locationId`, `timeFilter`, `replyScope`, `tone`, `isEnabled`. -/
structure Setting where
  locationId : String
  title : Option String
  tone : String
  keywords : Option String
  isEnabled : Bool
  timeFilter : String
  replyScope : String
  deriving DecidableEq

/-- JS string interpolation of a possibly-undefined value:
`${undefined}` renders as "undefined". -/
def interpOpt : Option String → String
  | none => "undefined"
  | some s => s

/-- JS `a || b` for a possibly-undefined string `a`: falsy when absent or
empty, in which case the default is used. -/
def orDefault : Option String → String → String
  | none, d => d
  | some s, d => if s = "" then d else s

/-- JS truthiness of a possibly-undefined string. -/
def jsTruthyStr : Option String → Bool
  | none => false
  | some s => !(s == "")

/-! ## Time filter resolution -/

/-- Age of a review in days, as computed by P0:
`(now - reviewDate) / (1000 * 60 * 60 * 24)` on millisecond timestamps. -/
def daysDiff (now createTime : Int) : ℚ :=
  ((now : ℚ) - (createTime : ℚ)) / (1000 * 60 * 60 * 24)

/-- P0's day limit: `let limit = 9999;` then three `if`s for the recognized
values (src/unnamed/part_000 lines 371-374). -/
def limitP0 (timeFilter : String) : ℕ :=
  if timeFilter = "7days" then 7
  else if timeFilter = "14days" then 14
  else if timeFilter = "30days" then 30
  else 9999

/-- JS `Number.parseInt(s, 10)`: skip leading whitespace, optional sign,
then the maximal run of leading digits; `NaN` (here `none`) when no digit. -/
def parseIntJS (s : String) : Option Int :=
  let l := s.data.dropWhile (fun ch => ch.isWhitespace)
  let signAndRest : Int × List Char :=
    match l with
    | '-' :: t => (-1, t)
    | '+' :: t => (1, t)
    | t => (1, t)
  let ds := signAndRest.2.takeWhile (fun ch => ch.isDigit)
  if ds = [] then none
  else some (signAndRest.1 * (ds.foldl (fun a ch => a * 10 + (ch.toNat - 48)) 0 : ℕ))

/-- JS `String.prototype.replace(pat, "")`: remove the first occurrence of
`pat` (used by `getCutoffDate` as `timeFilter.replace("days", "")`). -/
def removeFirst (pat : List Char) : List Char → List Char
  | [] => []
  | a :: t =>
    if pat.isPrefixOf (a :: t) then (a :: t).drop pat.length
    else a :: removeFirst pat t

/-- Srv's `getCutoffDate` (src/server.js lines 437-444): `"all"` and
non-numeric filters yield `null`; otherwise the parsed number of days is
subtracted from the current time.  `cutoff.setDate(cutoff.getDate() - days)`
is modelled as subtracting exactly `days` whole days of milliseconds. -/
def getCutoffDate (now : Int) (timeFilter : String) : Option Int :=
  if timeFilter = "all" then none
  else
    match parseIntJS ⟨removeFirst "days".data timeFilter.data⟩ with
    | none => none
    | some days => some (now - days * (24 * 60 * 60 * 1000))

/-! ## Eligibility (the pure decision `isEligible(review, setting, now)`)

Each runner inlines its own skip conditions; we extract them verbatim. -/

/-- P0 time skip (part_000 lines 366-376): `daysDiff > limit`.  Because the
divisor `1000*60*60*24` is positive, `daysDiff now t > limit` holds iff
`now - t > limit * 86400000`; the comparison is performed at the millisecond
level so that it is kernel-computable (see `daysDiff_gt_iff`). -/
def skipTimeP0 (s : Setting) (now : Int) (r : Review) : Bool :=
  match r.createTime with
  | none => false
  | some t => decide (now - t > (limitP0 s.timeFilter : Int) * (1000 * 60 * 60 * 24))

/-- P0/Srv scope skip: `replyScope === 'unreplied_only' && review.reviewReply`. -/
def skipScopeUnreplied (s : Setting) (r : Review) : Bool :=
  s.replyScope == "unreplied_only" && r.reviewReply.isSome

/-- P0 eligibility: a review is processed iff neither skip fires. -/
def isEligibleP0 (r : Review) (s : Setting) (now : Int) : Bool :=
  !(skipTimeP0 s now r) && !(skipScopeUnreplied s r)

/-- Srv time skip (server.js lines 481-486):
`if (cutoffDate && createdTime && createdTime < cutoffDate) continue`. -/
def skipTimeSrv (s : Setting) (now : Int) (r : Review) : Bool :=
  match getCutoffDate now s.timeFilter, r.createTime with
  | some cutoff, some t => decide (t < cutoff)
  | _, _ => false

/-- Srv eligibility (server.js lines 481-491). -/
def isEligibleSrv (r : Review) (s : Setting) (now : Int) : Bool :=
  !(skipTimeSrv s now r) && !(skipScopeUnreplied s r)

/-- S1 scope skip (server.js line 192):
`if (loc.replyScope === "Unreplied Only" && review.reviewReply) continue;`
S1 has no time filter. -/
def skipScopeS1 (s : Setting) (r : Review) : Bool :=
  s.replyScope == "Unreplied Only" && r.reviewReply.isSome

/-- S1 eligibility: scope check only. -/
def isEligibleS1 (r : Review) (s : Setting) : Bool :=
  !(skipScopeS1 s r)

/-! ## JS `String.prototype.trim` -/

def isWsChar (ch : Char) : Bool := ch.isWhitespace

def trimLeftL (l : List Char) : List Char := l.dropWhile isWsChar

def trimRightL (l : List Char) : List Char := List.rdropWhile isWsChar l

/-- JS `s.trim()`: strip leading and trailing whitespace. -/
def jsTrim (s : String) : String := ⟨trimRightL (trimLeftL s.data)⟩

/-! ## Prompt construction -/

/-- Srv's `buildPrompt` (src/server.js lines 446-459).  The source
destructures `{ tone, review }`; it receives the setting's tone and never
sees the setting's keywords. -/
def buildPrompt (tone : String) (r : Review) : String :=
  "You are responding to a Google review in a " ++ tone ++
  " tone.\n\nReview details:\nReviewer: " ++ orDefault r.reviewerDisplayName "the customer" ++
  "\nRating: " ++ orDefault r.starRating "" ++
  "\nComment: \"" ++ orDefault r.comment "" ++
  "\"\n\nWrite a concise, friendly reply that thanks them and addresses their feedback. Do not mention automation."

/-- P0's inline prompt (part_000 lines 383-386), whitespace included. -/
def promptP0 (s : Setting) (r : Review) : String :=
  "Write a reply to this customer review: \"" ++ orDefault r.comment "Star Rating" ++
  "\". \n                    Business: " ++ interpOpt s.title ++
  ". Tone: " ++ s.tone ++
  ". \n                    " ++
  (if jsTruthyStr s.keywords then "Include keywords: " ++ s.keywords.getD "" else "") ++
  ". \n                    Keep it professional and short."

/-- P1's inline prompt (part_001 lines 214-217), whitespace included. -/
def promptP1 (s : Setting) (r : Review) : String :=
  "Write a reply to this customer review: \"" ++ orDefault r.comment "Star rating only" ++
  "\".\n                        Rating: " ++ interpOpt r.starRating ++
  ". Tone: " ++ s.tone ++
  ".\n                        " ++
  (if s.tone == "SEO Friendly" then "Keywords: " ++ interpOpt s.keywords else "") ++
  "\n                        Keep it professional."

/-- S1's inline prompt (src/server.js lines 194-199). -/
def promptS1 (s : Setting) (r : Review) : String :=
  "\nReply to this Google review politely.\nTone: " ++ s.tone ++
  "\nKeywords: " ++ interpOpt s.keywords ++
  "\nReview: \"" ++ interpOpt r.comment ++ "\"\n"

/-! ## Substring containment -/

/-- `needle` occurs contiguously inside `hay`. -/
def strHas (hay needle : String) : Prop := needle.data <:+: hay.data

instance (hay needle : String) : Decidable (strHas hay needle) :=
  List.decidableInfix needle.data hay.data

/-! ## External collaborators

The Review Source, Reply Generator and the Reply Publisher are oracles; a JS
exception thrown by a call is `Except.error`. -/

structure Collab where
  fetchReviews : String → Except String (List Review)
  generate : String → Except String String
  publish : String → String → Except String Unit

/-- A report entry pushed by P0 (part_000 lines 397-402). -/
structure ReportEntry where
  business : Option String
  reviewer : Option String
  action : String
  details : String
  deriving DecidableEq

def entryP0 (s : Setting) (r : Review) : ReportEntry :=
  { business := s.title
    reviewer := r.reviewerDisplayName
    action := "Replied"
    details := if r.reviewReply.isSome then "Updated existing reply" else "New reply" }

/-! ## P0 Automation Runner (`runAutomationForUser`, part_000 lines 349-410)

The whole per-setting body sits in one `try { ... } catch`: the first
exception inside a location (fetch, generate or publish) ends that location's
processing, keeping the entries pushed so far, and the next location
continues.  The second component of the state records every publish call that
was issued (review name, reply text). -/

def loopReviewsP0 (c : Collab) (s : Setting) (now : Int) :
    List Review → List ReportEntry → List (String × String) →
    List ReportEntry × List (String × String)
  | [], rep, pubs => (rep, pubs)
  | r :: rest, rep, pubs =>
    if skipTimeP0 s now r then loopReviewsP0 c s now rest rep pubs
    else if skipScopeUnreplied s r then loopReviewsP0 c s now rest rep pubs
    else
      match c.generate (promptP0 s r) with
      | Except.error _ => (rep, pubs)
      | Except.ok t =>
        match c.publish r.name t with
        | Except.error _ => (rep, pubs ++ [(r.name, t)])
        | Except.ok _ =>
          loopReviewsP0 c s now rest (rep ++ [entryP0 s r]) (pubs ++ [(r.name, t)])

def runSettingP0 (c : Collab) (now : Int) (s : Setting) :
    List ReportEntry × List (String × String) :=
  if !s.isEnabled then ([], [])
  else
    match c.fetchReviews s.locationId with
    | Except.error _ => ([], [])
    | Except.ok reviews => loopReviewsP0 c s now reviews [] []

def runAutomationForUser (c : Collab) (now : Int) :
    List Setting → List ReportEntry × List (String × String)
  | [] => ([], [])
  | s :: rest =>
    let first := runSettingP0 c now s
    let tail := runAutomationForUser c now rest
    (first.1 ++ tail.1, first.2 ++ tail.2)

/-! ## Srv Automation Runner (`runAutomation`, src/server.js lines 462-514)

No try/catch anywhere: the first exception aborts the whole run (the third
component carries it).  The first component collects the `log(...)` lines,
the second the publish calls. -/

def loopReviewsSrv (c : Collab) (s : Setting) (now : Int) :
    List Review → List String → List (String × String) →
    List String × List (String × String) × Option String
  | [], logs, pubs => (logs, pubs, none)
  | r :: rest, logs, pubs =>
    if skipTimeSrv s now r then
      loopReviewsSrv c s now rest (logs ++ ["Skipped old review for " ++ s.locationId]) pubs
    else if skipScopeUnreplied s r then
      loopReviewsSrv c s now rest (logs ++ ["Skipped replied review for " ++ s.locationId]) pubs
    else
      match c.generate (buildPrompt s.tone r) with
      | Except.error e => (logs, pubs, some e)
      | Except.ok raw =>
        if jsTrim raw = "" then
          loopReviewsSrv c s now rest (logs ++ ["Skipped empty reply for " ++ s.locationId]) pubs
        else
          match c.publish r.name (jsTrim raw) with
          | Except.error e => (logs, pubs ++ [(r.name, jsTrim raw)], some e)
          | Except.ok _ =>
            loopReviewsSrv c s now rest
              (logs ++ ["Replied to review by " ++ orDefault r.reviewerDisplayName "a customer"
                          ++ " for " ++ s.locationId])
              (pubs ++ [(r.name, jsTrim raw)])

def runSettingsSrv (c : Collab) (now : Int) :
    List Setting → List String → List (String × String) →
    List String × List (String × String) × Option String
  | [], logs, pubs => (logs, pubs, none)
  | s :: rest, logs, pubs =>
    if !s.isEnabled then runSettingsSrv c now rest logs pubs
    else
      match c.fetchReviews s.locationId with
      | Except.error e => (logs, pubs, some e)
      | Except.ok reviews =>
        match loopReviewsSrv c s now reviews logs pubs with
        | (logs2, pubs2, none) => runSettingsSrv c now rest logs2 pubs2
        | (logs2, pubs2, some e) => (logs2, pubs2, some e)

def runAutomation (c : Collab) (now : Int) (settings : List Setting) :
    List String × List (String × String) × Option String :=
  runSettingsSrv c now settings [] []

/-! ## S1 Automation Runner (`runAutomation`, src/server.js lines 178-214)

Iterates `settings.filter(l => l.isEnabled)`; no time filter, no empty-text
check, no try/catch. -/

def loopReviewsS1 (c : Collab) (s : Setting) :
    List Review → List String → List (String × String) →
    List String × List (String × String) × Option String
  | [], logs, pubs => (logs, pubs, none)
  | r :: rest, logs, pubs =>
    if skipScopeS1 s r then loopReviewsS1 c s rest logs pubs
    else
      match c.generate (promptS1 s r) with
      | Except.error e => (logs, pubs, some e)
      | Except.ok t =>
        match c.publish r.name t with
        | Except.error e => (logs, pubs ++ [(r.name, t)], some e)
        | Except.ok _ =>
          loopReviewsS1 c s rest
            (logs ++ ["Replied to " ++ interpOpt r.reviewerDisplayName])
            (pubs ++ [(r.name, t)])

def runSettingsS1 (c : Collab) :
    List Setting → List String → List (String × String) →
    List String × List (String × String) × Option String
  | [], logs, pubs => (logs, pubs, none)
  | s :: rest, logs, pubs =>
    match c.fetchReviews s.locationId with
    | Except.error e => (logs, pubs, some e)
    | Except.ok reviews =>
      match loopReviewsS1 c s reviews logs pubs with
      | (logs2, pubs2, none) => runSettingsS1 c rest logs2 pubs2
      | (logs2, pubs2, some e) => (logs2, pubs2, some e)

def runAutomationS1 (c : Collab) (settings : List Setting) :
    List String × List (String × String) × Option String :=
  runSettingsS1 c (settings.filter (fun l => l.isEnabled)) [] []

/-! ## Settings normalization (src/server.js lines 359-379) -/

/-- A raw client-submitted setting; each field may be absent. -/
structure RawSetting where
  locationId : Option String
  timeFilter : Option String
  replyScope : Option String
  tone : Option String
  isEnabled : Bool
  deriving DecidableEq

def normalizeOne (s : RawSetting) : Setting :=
  { locationId := s.locationId.getD ""
    title := none
    tone :=
      match s.tone with
      | some t => if jsTrim t = "" then "polite and professional" else jsTrim t
      | none => "polite and professional"
    keywords := none
    isEnabled := s.isEnabled
    timeFilter :=
      match s.timeFilter with
      | some tf => if ["7days", "14days", "30days", "all"].contains tf then tf else "7days"
      | none => "7days"
    replyScope :=
      match s.replyScope with
      | some sc => if ["unreplied_only", "rewrite_all"].contains sc then sc else "unreplied_only"
      | none => "unreplied_only" }

def normalizeSettings (settings : List (Option RawSetting)) : List Setting :=
  ((settings.filterMap id).filter (fun s => jsTruthyStr s.locationId)).map normalizeOne

/-! ## The save-and-run routes

A user database is a lookup from the caller-supplied identifier to the
stored user (here represented by their settings list). -/

inductive SaveRunResp where
  | unauthorized (msg : String)
  | okReport (report : List ReportEntry)
  | okLogs (logs : List String)
  | serverError (msg : String)
  deriving DecidableEq

structure SaveRunResult where
  resp : SaveRunResp
  saved : Option (List Setting)
  deriving DecidableEq

/-- P0's `/api/save-and-run` (part_000 lines 314-332): look the user up,
reject with a 401 "User not found" before anything is saved, otherwise save
the submitted settings wholesale and run the automation.  The body sits in a
`try/catch`; `runAutomationForUser` absorbs all per-item failures and is
total here, so the 500 branch is unreachable in this model. -/
def saveAndRunP0 (findUser : String → Option (List Setting)) (c : Collab) (now : Int)
    (googleId : String) (selectedLocations : List Setting) : SaveRunResult :=
  match findUser googleId with
  | none => { resp := SaveRunResp.unauthorized "User not found", saved := none }
  | some _ =>
    { resp := SaveRunResp.okReport (runAutomationForUser c now selectedLocations).1
      saved := some selectedLocations }

/-- S1's `/api/save-and-run` (src/server.js lines 156-164): no user check at
all — `user.automationSettings = settings` on a `null` user throws a
`TypeError` (surfaced as a server error, not a 401), before anything is
saved.  For a known user the settings are saved first and the S1 runner has
no try/catch, so its first exception fails the whole call. -/
def saveAndRunS1 (findUser : String → Option (List Setting)) (c : Collab)
    (googleId : String) (settings : List Setting) : SaveRunResult :=
  match findUser googleId with
  | none =>
    { resp := SaveRunResp.serverError "TypeError: Cannot set properties of null"
      saved := none }
  | some _ =>
    match runAutomationS1 c settings with
    | (logs, _, none) => { resp := SaveRunResp.okLogs logs, saved := some settings }
    | (_, _, some e) => { resp := SaveRunResp.serverError e, saved := some settings }

/-! ## The bulk (cron) routes -/

structure UserRec where
  uid : String
  settings : List Setting
  deriving DecidableEq

/-- P0's `/api/global-cron-run` (part_000 lines 335-346): every user whose
settings contain an enabled entry gets one `runAutomationForUser` call and is
counted; the response reports `Processed ${count} users`.  Returns the count
together with the identifiers of the users for which the runner was invoked,
in iteration order.  `runAutomationForUser` absorbs every modelled failure,
so the loop always completes. -/
def cronP0 (c : Collab) (now : Int) : List UserRec → ℕ × List String × List (String × String)
  | [] => (0, [], [])
  | u :: rest =>
    if u.settings.any (fun s => s.isEnabled) then
      let tail := cronP0 c now rest
      (tail.1 + 1, u.uid :: tail.2.1, (runAutomationForUser c now u.settings).2 ++ tail.2.2)
    else cronP0 c now rest

/-- S1's `/api/global-cron-run` (src/server.js lines 167-175): iterates every
user with a non-empty settings list (`user.automationSettings?.length`),
enabled or not, and `await`s the S1 runner with no try/catch — an exception
halts the loop.  Responds "Cron Completed" with no count. -/
def cronS1 (c : Collab) : List UserRec → List String × Option String
  | [] => ([], none)
  | u :: rest =>
    if u.settings.length != 0 then
      match runAutomationS1 c u.settings with
      | (_, _, none) =>
        let tail := cronS1 c rest
        (u.uid :: tail.1, tail.2)
      | (_, _, some e) => ([u.uid], some e)
    else cronS1 c rest

def cronUsersS2 (c : Collab) (now : Int) : List UserRec → List String × Option String
  | [] => ([], none)
  | u :: rest =>
    match runAutomation c now u.settings with
    | (_, _, none) =>
      let tail := cronUsersS2 c now rest
      (u.uid :: tail.1, tail.2)
    | (_, _, some e) => ([u.uid], some e)

/-- Srv's `/api/global-cron-run` (src/server.js lines 530-536): the query
`User.find({ "automationSettings.isEnabled": true })` selects users having at
least one enabled setting; each is `await`ed with no try/catch, so one user's
exception stops the remaining users.  Responds with a status message, no
count. -/
def cronS2 (c : Collab) (now : Int) (db : List UserRec) : List String × Option String :=
  cronUsersS2 c now (db.filter (fun u => u.settings.any (fun s => s.isEnabled)))

/-! ## Concrete example inputs used by witnesses and counterexamples -/

def dayMs : Int := 1000 * 60 * 60 * 24

def revA : Review :=
  { name := "reviews/r1", createTime := some 0, starRating := some "FIVE",
    comment := some "Great coffee", reviewerDisplayName := some "Alice", reviewReply := none }

def revReplied : Review :=
  { revA with name := "reviews/r2", reviewReply := some "thanks" }

def setAll : Setting :=
  { locationId := "locations/L1", title := some "Cafe", tone := "friendly",
    keywords := none, isEnabled := true, timeFilter := "all", replyScope := "rewrite_all" }

def set7Unreplied : Setting :=
  { setAll with timeFilter := "7days", replyScope := "unreplied_only" }

def set15 : Setting :=
  { setAll with timeFilter := "15days" }

def raw15 : RawSetting :=
  { locationId := some "locations/L1", timeFilter := some "15days",
    replyScope := none, tone := none, isEnabled := true }

def rawMessy : RawSetting :=
  { locationId := some "locations/L2", timeFilter := some "weird",
    replyScope := some "bogus", tone := some "  Warm  ", isEnabled := true }

def revNoComment : Review :=
  { revA with comment := none }

def setKw : Setting :=
  { setAll with keywords := some "espresso" }

def setSEO : Setting :=
  { setAll with tone := "SEO Friendly", keywords := some "espresso" }

def revB : Review :=
  { revA with name := "reviews/r2" }

def setDisabled : Setting :=
  { setAll with isEnabled := false }

/-- Collaborators that always succeed. -/
def collabOk : Collab :=
  { fetchReviews := fun _ => Except.ok [revA]
    generate := fun _ => Except.ok "Thank you!"
    publish := fun _ _ => Except.ok () }

/-- Collaborators whose generator returns the empty string. -/
def collabEmptyGen : Collab :=
  { fetchReviews := fun _ => Except.ok [revA]
    generate := fun _ => Except.ok ""
    publish := fun _ _ => Except.ok () }

/-- Collaborators whose publisher throws for review "reviews/r1" only. -/
def collabPubFailR1 : Collab :=
  { fetchReviews := fun _ => Except.ok [revA, revB]
    generate := fun _ => Except.ok "Thank you!"
    publish := fun nm _ => if nm = "reviews/r1" then Except.error "boom" else Except.ok () }

/-- Collaborators whose generator always throws. -/
def collabGenFail : Collab :=
  { fetchReviews := fun _ => Except.ok [revA, revB]
    generate := fun _ => Except.error "boom"
    publish := fun _ _ => Except.ok () }

/-- Collaborators whose review fetch always throws. -/
def collabFetchFail : Collab :=
  { fetchReviews := fun _ => Except.error "network"
    generate := fun _ => Except.ok "Thank you!"
    publish := fun _ _ => Except.ok () }

/-- Collaborators whose fetch succeeds with no reviews. -/
def collabNoReviews : Collab :=
  { fetchReviews := fun _ => Except.ok []
    generate := fun _ => Except.ok "Thank you!"
    publish := fun _ _ => Except.ok () }

def emptyDb : String → Option (List Setting) := fun _ => none

def oneUserDb : String → Option (List Setting) :=
  fun uid => if uid = "u1" then some [setAll] else none

def uDisabled : UserRec := { uid := "u-dis", settings := [setDisabled] }

def uEnabledA : UserRec := { uid := "u-a", settings := [setAll] }

def uEnabledB : UserRec := { uid := "u-b", settings := [setAll] }

/-! # Helper lemmas -/

/-- The millisecond-level comparison used by `skipTimeP0` agrees with the
days-level phrasing `daysDiff now t > limit`. -/
theorem daysDiff_gt_iff (now t : Int) (limit : ℕ) :
    daysDiff now t > (limit : ℚ) ↔ now - t > (limit : Int) * (1000 * 60 * 60 * 24) := by
  unfold daysDiff
  rw [gt_iff_lt, lt_div_iff₀ (by norm_num)]
  rw [gt_iff_lt, show ((1000 * 60 * 60 * 24 : ℚ)) = ((1000 * 60 * 60 * 24 : ℤ) : ℚ) by norm_num]
  rw [← Int.cast_natCast, ← Int.cast_mul, ← Int.cast_sub, Int.cast_lt]

theorem strDataAppend (a b : String) : (a ++ b).data = a.data ++ b.data := by
  cases a; cases b; rfl

theorem strHas_of_eq (hay pre needle post : String)
    (h : hay = pre ++ needle ++ post) : strHas hay needle := by
  unfold strHas
  subst h
  rw [strDataAppend, strDataAppend]
  exact List.infix_append _ _ _

theorem strAppendAssoc (a b c : String) : a ++ b ++ c = a ++ (b ++ c) := by
  obtain ⟨la⟩ := a
  obtain ⟨lb⟩ := b
  obtain ⟨lc⟩ := c
  exact congrArg String.mk (List.append_assoc la lb lc)

theorem skipTimeP0_true_iff (s : Setting) (now t : Int) (r : Review)
    (h : r.createTime = some t) :
    skipTimeP0 s now r = true ↔ now - t > (limitP0 s.timeFilter : Int) * (1000 * 60 * 60 * 24) := by
  simp [skipTimeP0, h]

theorem skipTimeSrv_true_iff (s : Setting) (now t cutoff : Int) (r : Review)
    (h : r.createTime = some t) (hc : getCutoffDate now s.timeFilter = some cutoff) :
    skipTimeSrv s now r = true ↔ t < cutoff := by
  simp [skipTimeSrv, h, hc]

theorem getCutoffDate_7days (now : Int) :
    getCutoffDate now "7days" = some (now - 7 * (24 * 60 * 60 * 1000)) := rfl

theorem getCutoffDate_14days (now : Int) :
    getCutoffDate now "14days" = some (now - 14 * (24 * 60 * 60 * 1000)) := rfl

theorem getCutoffDate_30days (now : Int) :
    getCutoffDate now "30days" = some (now - 30 * (24 * 60 * 60 * 1000)) := rfl

theorem getCutoffDate_all (now : Int) : getCutoffDate now "all" = none := rfl

/-- `dropWhile p` fixpoints are closed under taking prefixes. -/
theorem dropWhile_eq_self_of_prefix {α : Type} {p : α → Bool} {l₁ l₂ : List α}
    (hp : l₁ <+: l₂) (h : l₂.dropWhile p = l₂) : l₁.dropWhile p = l₁ := by
  cases l₁ with
  | nil => rfl
  | cons a t =>
    obtain ⟨rest, rfl⟩ := hp
    rw [List.cons_append, List.dropWhile_cons] at h
    rw [List.dropWhile_cons]
    by_cases hpa : p a = true
    · rw [if_pos hpa] at h
      have hlen := congrArg List.length h
      have hle := (List.dropWhile_sublist (l := t ++ rest) p).length_le
      simp only [List.length_cons] at hlen
      omega
    · simp [hpa]

/-- JS `trim` is idempotent: the result has no leading or trailing
whitespace left. -/
theorem jsTrim_idem (s : String) : jsTrim (jsTrim s) = jsTrim s := by
  unfold jsTrim trimRightL trimLeftL
  have h1 : List.dropWhile isWsChar (List.rdropWhile isWsChar (List.dropWhile isWsChar s.data))
      = List.rdropWhile isWsChar (List.dropWhile isWsChar s.data) :=
    dropWhile_eq_self_of_prefix (List.rdropWhile_prefix _ _)
      (List.dropWhile_idempotent _ _)
  show String.mk (List.rdropWhile isWsChar (List.dropWhile isWsChar
      (List.rdropWhile isWsChar (List.dropWhile isWsChar s.data)))) = _
  rw [h1, List.rdropWhile_idempotent]

/-- A review older than the resolved threshold is skipped by both time
checks, hence ineligible in both variants. -/
theorem ineligible_of_age_gt (r : Review) (s : Setting) (now t : Int) (d : ℕ)
    (hct : r.createTime = some t)
    (hlim : limitP0 s.timeFilter = d)
    (hcut : getCutoffDate now s.timeFilter = some (now - (d : Int) * (24 * 60 * 60 * 1000)))
    (hgt : daysDiff now t > (d : ℚ)) :
    isEligibleP0 r s now = false ∧ isEligibleSrv r s now = false := by
  have hms := (daysDiff_gt_iff now t d).mp hgt
  have hp0 : skipTimeP0 s now r = true := by
    rw [skipTimeP0_true_iff s now t r hct, hlim]
    exact hms
  have hsrv : skipTimeSrv s now r = true := by
    rw [skipTimeSrv_true_iff s now t _ r hct hcut]
    omega
  exact ⟨by simp [isEligibleP0, hp0], by simp [isEligibleSrv, hsrv]⟩

/-! # Claim theorems -/

/-- Claim C1 (amended).  For `timeFilter` in {7days, 14days, 30days}, a
review whose age in days exceeds the matching threshold is ineligible in
both the P0 and the Srv eligibility logic.  For `timeFilter = "all"` the Srv
logic never excludes a review by age, but the P0 logic resolves "all" to a
9999-day limit: it age-excludes a review exactly when its age exceeds 9999
days. -/
theorem c1_time_thresholds_amended :
    (∀ (r : Review) (s : Setting) (now t : Int) (d : ℕ),
        r.createTime = some t →
        ((s.timeFilter = "7days" ∧ d = 7) ∨ (s.timeFilter = "14days" ∧ d = 14) ∨
          (s.timeFilter = "30days" ∧ d = 30)) →
        daysDiff now t > (d : ℚ) →
        isEligibleP0 r s now = false ∧ isEligibleSrv r s now = false)
    ∧ (∀ (r : Review) (s : Setting) (now : Int),
        s.timeFilter = "all" → skipTimeSrv s now r = false)
    ∧ (∀ (r : Review) (s : Setting) (now t : Int),
        r.createTime = some t → s.timeFilter = "all" →
        (skipTimeP0 s now r = true ↔ daysDiff now t > (9999 : ℚ))) := by
  refine ⟨?_, ?_, ?_⟩
  · rintro r s now t d hct (⟨htf, hd⟩ | ⟨htf, hd⟩ | ⟨htf, hd⟩) hgt <;> subst hd <;>
      exact ineligible_of_age_gt r s now t _ hct (by rw [htf]; rfl) (by rw [htf]; rfl) hgt
  · intro r s now htf
    simp [skipTimeSrv, htf, getCutoffDate_all]
  · intro r s now t hct htf
    rw [skipTimeP0_true_iff s now t r hct, htf]
    rw [show (limitP0 "all") = 9999 from rfl]
    rw [show ((9999 : ℚ)) = ((9999 : ℕ) : ℚ) by norm_num]
    exact (daysDiff_gt_iff now t 9999).symm

/-- Witness for C1: an 8-day-old review under a "7days" filter is ineligible
in both variants. -/
theorem c1_time_thresholds_amended_witness :
    isEligibleP0 revA set7Unreplied (8 * dayMs) = false ∧
    isEligibleSrv revA set7Unreplied (8 * dayMs) = false :=
  c1_time_thresholds_amended.1 revA set7Unreplied (8 * dayMs) 0 7 rfl
    (Or.inl ⟨rfl, rfl⟩) (by norm_num [daysDiff, dayMs])

/-- Counterexample to C1 as stated: under `timeFilter = "all"` the P0 logic
still age-excludes a 10000-day-old review (its scope check does not fire, so
age alone makes it ineligible), contradicting "age never makes a review
ineligible when timeFilter is all". -/
theorem c1_counterexample :
    setAll.timeFilter = "all" ∧ skipScopeUnreplied setAll revA = false ∧
    isEligibleP0 revA setAll (10000 * dayMs) = false := by
  refine ⟨rfl, rfl, ?_⟩
  decide

/-- Claim C2 (confirmed).  Subject to the time filter (the review is inside
the window), a setting with the unreplied-only scope makes a review eligible
exactly when it carries no existing reply; this holds in all three runner
snapshots (P0 and Srv use the value "unreplied_only", S1 uses
"Unreplied Only" and has no time window). -/
theorem c2_unreplied_only_eligibility :
    ∀ (r : Review) (s : Setting) (now : Int),
      (s.replyScope = "unreplied_only" → skipTimeP0 s now r = false →
        isEligibleP0 r s now = !r.reviewReply.isSome)
      ∧ (s.replyScope = "unreplied_only" → skipTimeSrv s now r = false →
        isEligibleSrv r s now = !r.reviewReply.isSome)
      ∧ (s.replyScope = "Unreplied Only" → isEligibleS1 r s = !r.reviewReply.isSome) := by
  intro r s now
  refine ⟨fun hsc ht => ?_, fun hsc ht => ?_, fun hsc => ?_⟩
  · simp [isEligibleP0, ht, skipScopeUnreplied, hsc]
  · simp [isEligibleSrv, ht, skipScopeUnreplied, hsc]
  · simp [isEligibleS1, skipScopeS1, hsc]

/-- Witness for C2: a fresh already-replied review is ineligible, and the
same review without the reply is eligible, under "unreplied_only". -/
theorem c2_unreplied_only_eligibility_witness :
    isEligibleP0 revReplied set7Unreplied 0 = !revReplied.reviewReply.isSome ∧
    isEligibleP0 revA set7Unreplied 0 = !revA.reviewReply.isSome :=
  ⟨(c2_unreplied_only_eligibility revReplied set7Unreplied 0).1 rfl (by decide),
   (c2_unreplied_only_eligibility revA set7Unreplied 0).1 rfl (by decide)⟩

/-- Claim C3 (confirmed).  With `replyScope = "rewrite_all"`, two reviews
differing only in their existing-reply field get the same eligibility
decision, in every snapshot's eligibility logic. -/
theorem c3_rewrite_all_reply_independent :
    ∀ (r : Review) (x : Option String) (s : Setting) (now : Int),
      s.replyScope = "rewrite_all" →
      isEligibleP0 { r with reviewReply := x } s now = isEligibleP0 r s now ∧
      isEligibleSrv { r with reviewReply := x } s now = isEligibleSrv r s now ∧
      isEligibleS1 { r with reviewReply := x } s = isEligibleS1 r s := by
  intro r x s now hsc
  refine ⟨?_, ?_, ?_⟩
  · simp [isEligibleP0, skipTimeP0, skipScopeUnreplied, hsc]
  · simp [isEligibleSrv, skipTimeSrv, skipScopeUnreplied, hsc]
  · simp [isEligibleS1, skipScopeS1, hsc]

/-- Witness for C3: attaching a reply to a fresh review does not change its
eligibility under "rewrite_all". -/
theorem c3_rewrite_all_reply_independent_witness :
    isEligibleP0 { revA with reviewReply := some "done" } setAll 0 = isEligibleP0 revA setAll 0 ∧
    isEligibleSrv { revA with reviewReply := some "done" } setAll 0 = isEligibleSrv revA setAll 0 ∧
    isEligibleS1 { revA with reviewReply := some "done" } setAll = isEligibleS1 revA setAll :=
  c3_rewrite_all_reply_independent revA (some "done") setAll 0 rfl

/-- Claim C4 (amended).  Unrecognized `timeFilter` values do not resolve to
an unbounded threshold across the board.  P0 resolves every unrecognized
value to a 9999-day limit (so only reviews at most 9999 days old are safe
from age exclusion).  Srv's `getCutoffDate` fails open only when the value,
after removing the first "days", has no leading integer; a value such as
"15days" resolves to a bounded 15-day cutoff that does exclude older
reviews.  `normalizeSettings` replaces unrecognized values by "7days" before
they are stored. -/
theorem c4_unrecognized_timeFilter_amended :
    (∀ (s : Setting), s.timeFilter ≠ "7days" → s.timeFilter ≠ "14days" →
        s.timeFilter ≠ "30days" → limitP0 s.timeFilter = 9999)
    ∧ (∀ (r : Review) (s : Setting) (now t : Int),
        r.createTime = some t →
        s.timeFilter ≠ "7days" → s.timeFilter ≠ "14days" → s.timeFilter ≠ "30days" →
        ¬ daysDiff now t > (9999 : ℚ) → skipTimeP0 s now r = false)
    ∧ (∀ (r : Review) (s : Setting) (now : Int),
        parseIntJS ⟨removeFirst "days".data s.timeFilter.data⟩ = none →
        skipTimeSrv s now r = false)
    ∧ (∀ (now : Int) (tf : String) (d : Int),
        tf ≠ "all" → parseIntJS ⟨removeFirst "days".data tf.data⟩ = some d →
        getCutoffDate now tf = some (now - d * (24 * 60 * 60 * 1000)))
    ∧ (∀ (raw : RawSetting) (tf : String),
        raw.timeFilter = some tf → tf ∉ (["7days", "14days", "30days", "all"] : List String) →
        (normalizeOne raw).timeFilter = "7days") := by
  refine ⟨?_, ?_, ?_, ?_, ?_⟩
  · intro s h7 h14 h30
    simp [limitP0, h7, h14, h30]
  · intro r s now t hct h7 h14 h30 hle
    have hlim : limitP0 s.timeFilter = 9999 := by simp [limitP0, h7, h14, h30]
    rw [← Bool.not_eq_true, skipTimeP0_true_iff s now t r hct, hlim]
    rw [← daysDiff_gt_iff now t 9999]
    exact_mod_cast hle
  · intro r s now hp
    have hc : getCutoffDate now s.timeFilter = none := by
      by_cases hall : s.timeFilter = "all"
      · simp [getCutoffDate, hall]
      · simp [getCutoffDate, hall, hp]
    simp [skipTimeSrv, hc]
  · intro now tf d hall hp
    simp [getCutoffDate, hall, hp]
  · intro raw tf h1 h2
    simp only [List.mem_cons, List.mem_singleton, not_or] at h2
    simp [normalizeOne, h1, h2.1, h2.2.1, h2.2.2.1, h2.2.2.2]

/-- Witness for C4: the unrecognized value "15days" yields a bounded cutoff,
"sometime" yields no cutoff (never excludes), P0 resolves "15days" to 9999
days, and normalization rewrites "15days" to "7days". -/
theorem c4_unrecognized_timeFilter_amended_witness :
    limitP0 set15.timeFilter = 9999 ∧
    skipTimeP0 set15 (20 * dayMs) revA = false ∧
    getCutoffDate 0 "15days" = some (0 - 15 * (24 * 60 * 60 * 1000)) ∧
    (normalizeOne raw15).timeFilter = "7days" :=
  ⟨c4_unrecognized_timeFilter_amended.1 set15 (by decide) (by decide) (by decide),
   c4_unrecognized_timeFilter_amended.2.1 revA set15 (20 * dayMs) 0 rfl (by decide) (by decide)
     (by decide) (by norm_num [daysDiff, dayMs]),
   c4_unrecognized_timeFilter_amended.2.2.2.1 0 "15days" 15 (by decide) (by decide),
   c4_unrecognized_timeFilter_amended.2.2.2.2 raw15 "15days" rfl (by decide)⟩

/-- Counterexample to C4 as stated: "15days" is not one of the four
recognized values, yet the Srv eligibility logic excludes a 20-day-old
review under it (the scope check does not fire), so the resolved threshold
is not unbounded. -/
theorem c4_counterexample :
    (set15.timeFilter ≠ "7days" ∧ set15.timeFilter ≠ "14days" ∧
      set15.timeFilter ≠ "30days" ∧ set15.timeFilter ≠ "all") ∧
    skipScopeUnreplied set15 revA = false ∧
    isEligibleSrv revA set15 (20 * dayMs) = false := by
  refine ⟨by decide, rfl, ?_⟩
  decide

/-- Claim C10 (confirmed).  Every entry produced by `normalizeSettings` has
a non-empty `locationId` (entries with a missing or empty one were dropped
by the filter), a `timeFilter` among the four recognized values (defaulting
to "7days"), a `replyScope` among the two recognized values (defaulting to
"unreplied_only"), and a non-empty tone with no surrounding whitespace
(the trimmed submitted tone, or the default).  `isEnabled` is a `Bool` by
construction of the embedding, mirroring `Boolean(setting.isEnabled)`. -/
theorem c10_normalize_invariant :
    ∀ (raws : List (Option RawSetting)) (out : Setting),
      out ∈ normalizeSettings raws →
      out.locationId ≠ "" ∧
      out.timeFilter ∈ (["7days", "14days", "30days", "all"] : List String) ∧
      out.replyScope ∈ (["unreplied_only", "rewrite_all"] : List String) ∧
      out.tone ≠ "" ∧ jsTrim out.tone = out.tone := by
  intro raws out hmem
  unfold normalizeSettings at hmem
  rw [List.mem_map] at hmem
  obtain ⟨raw, hraw, rfl⟩ := hmem
  rw [List.mem_filter] at hraw
  obtain ⟨-, htruthy⟩ := hraw
  refine ⟨?_, ?_, ?_, ?_⟩
  · cases hl : raw.locationId with
    | none => rw [hl] at htruthy; simp [jsTruthyStr] at htruthy
    | some v =>
      rw [hl] at htruthy
      simp only [jsTruthyStr, Bool.not_eq_true', beq_eq_false_iff_ne, ne_eq] at htruthy
      simpa [normalizeOne, hl] using htruthy
  · cases ht : raw.timeFilter with
    | none => simp [normalizeOne, ht]
    | some tf =>
      by_cases hc : (["7days", "14days", "30days", "all"] : List String).contains tf = true
      · simp only [normalizeOne, ht, if_pos hc]
        simpa using hc
      · simp only [normalizeOne, ht]
        rw [if_neg hc]
        simp
  · cases hs : raw.replyScope with
    | none => simp [normalizeOne, hs]
    | some sc =>
      by_cases hc : (["unreplied_only", "rewrite_all"] : List String).contains sc = true
      · simp only [normalizeOne, hs, if_pos hc]
        simpa using hc
      · simp only [normalizeOne, hs]
        rw [if_neg hc]
        simp
  · cases htn : raw.tone with
    | none =>
      refine ⟨by simp [normalizeOne, htn], ?_⟩
      simp only [normalizeOne, htn]
      decide
    | some t =>
      by_cases hz : jsTrim t = ""
      · refine ⟨by simp [normalizeOne, htn, hz], ?_⟩
        simp only [normalizeOne, htn, if_pos hz]
        decide
      · refine ⟨by simp [normalizeOne, htn, hz], ?_⟩
        simp only [normalizeOne, htn, if_neg hz]
        exact jsTrim_idem t

/-- Witness for C10 at a messy raw setting: unrecognized filter and scope
fall back to the defaults and the padded tone is trimmed. -/
theorem c10_normalize_invariant_witness :
    (normalizeOne rawMessy).locationId ≠ "" ∧
    (normalizeOne rawMessy).timeFilter ∈ (["7days", "14days", "30days", "all"] : List String) ∧
    (normalizeOne rawMessy).replyScope ∈ (["unreplied_only", "rewrite_all"] : List String) ∧
    (normalizeOne rawMessy).tone ≠ "" ∧ jsTrim (normalizeOne rawMessy).tone = (normalizeOne rawMessy).tone :=
  c10_normalize_invariant [some rawMessy] (normalizeOne rawMessy) (by decide)

/-- Claim C9 (amended).  `buildPrompt` (Srv) deterministically embeds the
tone, the star rating (empty-string default) and the review comment
verbatim (empty-string default — no textual placeholder); it receives only
`{tone, review}`, so the setting's keyword list is never embedded.  The
placeholder substitution and keyword embedding live in the inline prompts:
P0 substitutes "Star Rating" for an absent or empty comment and appends the
keyword list whenever it is present (truthy); P1 substitutes
"Star rating only", embeds the star rating, and embeds the keyword list
only when the tone is exactly "SEO Friendly". -/
theorem c9_prompt_contents_amended :
    (∀ (tone : String) (r : Review),
        strHas (buildPrompt tone r) tone ∧
        strHas (buildPrompt tone r) (orDefault r.starRating "") ∧
        strHas (buildPrompt tone r) (orDefault r.comment ""))
    ∧ (∀ (s : Setting) (r : Review),
        (r.comment = none ∨ r.comment = some "") → strHas (promptP0 s r) "Star Rating")
    ∧ (∀ (s : Setting) (r : Review),
        jsTruthyStr s.keywords = true → strHas (promptP0 s r) (s.keywords.getD ""))
    ∧ (∀ (s : Setting) (r : Review),
        strHas (promptP1 s r) (interpOpt r.starRating) ∧
        ((r.comment = none ∨ r.comment = some "") → strHas (promptP1 s r) "Star rating only") ∧
        (s.tone = "SEO Friendly" → strHas (promptP1 s r) (interpOpt s.keywords))) := by
  refine ⟨?_, ?_, ?_, ?_⟩
  · intro tone r
    refine ⟨?_, ?_, ?_⟩
    · exact strHas_of_eq _ "You are responding to a Google review in a " tone
        (" tone.\n\nReview details:\nReviewer: " ++ orDefault r.reviewerDisplayName "the customer" ++
          "\nRating: " ++ orDefault r.starRating "" ++ "\nComment: \"" ++ orDefault r.comment "" ++
          "\"\n\nWrite a concise, friendly reply that thanks them and addresses their feedback. Do not mention automation.")
        (by simp only [buildPrompt, strAppendAssoc])
    · exact strHas_of_eq _
        ("You are responding to a Google review in a " ++ tone ++
          " tone.\n\nReview details:\nReviewer: " ++ orDefault r.reviewerDisplayName "the customer" ++
          "\nRating: ")
        (orDefault r.starRating "")
        ("\nComment: \"" ++ orDefault r.comment "" ++
          "\"\n\nWrite a concise, friendly reply that thanks them and addresses their feedback. Do not mention automation.")
        (by simp only [buildPrompt, strAppendAssoc])
    · exact strHas_of_eq _
        ("You are responding to a Google review in a " ++ tone ++
          " tone.\n\nReview details:\nReviewer: " ++ orDefault r.reviewerDisplayName "the customer" ++
          "\nRating: " ++ orDefault r.starRating "" ++ "\nComment: \"")
        (orDefault r.comment "")
        ("\"\n\nWrite a concise, friendly reply that thanks them and addresses their feedback. Do not mention automation.")
        (by simp only [buildPrompt, strAppendAssoc])
  · intro s r hcm
    have hc : orDefault r.comment "Star Rating" = "Star Rating" := by
      rcases hcm with h | h <;> simp [orDefault, h]
    exact strHas_of_eq _ "Write a reply to this customer review: \"" "Star Rating"
      ("\". \n                    Business: " ++ interpOpt s.title ++ ". Tone: " ++ s.tone ++
        ". \n                    " ++
        (if jsTruthyStr s.keywords then "Include keywords: " ++ s.keywords.getD "" else "") ++
        ". \n                    Keep it professional and short.")
      (by simp only [promptP0, hc, strAppendAssoc])
  · intro s r hk
    exact strHas_of_eq _
      ("Write a reply to this customer review: \"" ++ orDefault r.comment "Star Rating" ++
        "\". \n                    Business: " ++ interpOpt s.title ++ ". Tone: " ++ s.tone ++
        ". \n                    " ++ "Include keywords: ")
      (s.keywords.getD "")
      (". \n                    Keep it professional and short.")
      (by simp only [promptP0, hk, if_true, strAppendAssoc])
  · intro s r
    refine ⟨?_, ?_, ?_⟩
    · exact strHas_of_eq _
        ("Write a reply to this customer review: \"" ++ orDefault r.comment "Star rating only" ++
          "\".\n                        Rating: ")
        (interpOpt r.starRating)
        (". Tone: " ++ s.tone ++ ".\n                        " ++
          (if s.tone == "SEO Friendly" then "Keywords: " ++ interpOpt s.keywords else "") ++
          "\n                        Keep it professional.")
        (by simp only [promptP1, strAppendAssoc])
    · intro hcm
      have hc : orDefault r.comment "Star rating only" = "Star rating only" := by
        rcases hcm with h | h <;> simp [orDefault, h]
      exact strHas_of_eq _ "Write a reply to this customer review: \"" "Star rating only"
        ("\".\n                        Rating: " ++ interpOpt r.starRating ++
          ". Tone: " ++ s.tone ++ ".\n                        " ++
          (if s.tone == "SEO Friendly" then "Keywords: " ++ interpOpt s.keywords else "") ++
          "\n                        Keep it professional.")
        (by simp only [promptP1, hc, strAppendAssoc])
    · intro htone
      exact strHas_of_eq _
        ("Write a reply to this customer review: \"" ++ orDefault r.comment "Star rating only" ++
          "\".\n                        Rating: " ++ interpOpt r.starRating ++
          ". Tone: " ++ s.tone ++ ".\n                        " ++ "Keywords: ")
        (interpOpt s.keywords)
        ("\n                        Keep it professional.")
        (by simp only [promptP1, htone]; simp only [strAppendAssoc]; rfl)

/-- Witness for C9: concrete prompts contain the tone, the placeholder for
a comment-less review, the P0 keyword list, and the P1 SEO keyword list. -/
theorem c9_prompt_contents_amended_witness :
    strHas (buildPrompt "friendly" revNoComment) "friendly" ∧
    strHas (promptP0 setKw revNoComment) "Star Rating" ∧
    strHas (promptP0 setKw revNoComment) (setKw.keywords.getD "") ∧
    strHas (promptP1 setSEO revNoComment) (interpOpt setSEO.keywords) :=
  ⟨(c9_prompt_contents_amended.1 "friendly" revNoComment).1,
   c9_prompt_contents_amended.2.1 setKw revNoComment (Or.inl rfl),
   c9_prompt_contents_amended.2.2.1 setKw revNoComment (by decide),
   (c9_prompt_contents_amended.2.2.2 setSEO revNoComment).2.2 rfl⟩

set_option maxRecDepth 100000 in
/-- Counterexample to C9 as stated: the setting's keyword list is present
("espresso"), yet `buildPrompt` output does not contain it — `buildPrompt`
never receives keywords; and for an absent comment the output carries the
comment line with an empty string, not a placeholder. -/
theorem c9_counterexample :
    jsTruthyStr setKw.keywords = true ∧
    ¬ strHas (buildPrompt setKw.tone revNoComment) "espresso" ∧
    strHas (buildPrompt setKw.tone revNoComment) "Comment: \"\"" := by
  refine ⟨by decide, by decide, by decide⟩

/-- Every publish call issued by the Srv per-review loop carries non-empty
text, assuming the incoming accumulator already satisfies that. -/
theorem loopReviewsSrv_pubs_nonempty (c : Collab) (s : Setting) (now : Int) :
    ∀ (rs : List Review) (logs : List String) (pubs : List (String × String)),
      (∀ pr ∈ pubs, pr.2 ≠ "") →
      ∀ pr ∈ (loopReviewsSrv c s now rs logs pubs).2.1, pr.2 ≠ "" := by
  intro rs
  induction rs with
  | nil => intro logs pubs hinv; simpa [loopReviewsSrv] using hinv
  | cons r rest ih =>
    intro logs pubs hinv
    rw [loopReviewsSrv]
    by_cases h1 : skipTimeSrv s now r = true
    · rw [if_pos h1]
      exact ih _ _ hinv
    · rw [if_neg h1]
      by_cases h2 : skipScopeUnreplied s r = true
      · rw [if_pos h2]
        exact ih _ _ hinv
      · rw [if_neg h2]
        cases hg : c.generate (buildPrompt s.tone r) with
        | error e => simpa using hinv
        | ok raw =>
          dsimp only
          by_cases h3 : jsTrim raw = ""
          · rw [if_pos h3]
            exact ih _ _ hinv
          · rw [if_neg h3]
            have hinv2 : ∀ pr ∈ pubs ++ [(r.name, jsTrim raw)], pr.2 ≠ "" := by
              intro pr hpr
              rcases List.mem_append.mp hpr with h | h
              · exact hinv pr h
              · rw [List.mem_singleton] at h
                subst h
                simpa using h3
            cases hp : c.publish r.name (jsTrim raw) with
            | error e => simpa using hinv2
            | ok u =>
              dsimp only
              exact ih _ _ hinv2

/-- Lifted to the Srv per-setting loop. -/
theorem runSettingsSrv_pubs_nonempty (c : Collab) (now : Int) :
    ∀ (ss : List Setting) (logs : List String) (pubs : List (String × String)),
      (∀ pr ∈ pubs, pr.2 ≠ "") →
      ∀ pr ∈ (runSettingsSrv c now ss logs pubs).2.1, pr.2 ≠ "" := by
  intro ss
  induction ss with
  | nil => intro logs pubs hinv; simpa [runSettingsSrv] using hinv
  | cons s rest ih =>
    intro logs pubs hinv
    rw [runSettingsSrv]
    by_cases hen : s.isEnabled = true
    · rw [if_neg (by simp [hen])]
      cases hf : c.fetchReviews s.locationId with
      | error e => simpa using hinv
      | ok reviews =>
        dsimp only
        have hloop := loopReviewsSrv_pubs_nonempty c s now reviews logs pubs hinv
        rcases hl : loopReviewsSrv c s now reviews logs pubs with ⟨logs2, pubs2, err⟩
        rw [hl] at hloop
        cases err with
        | none =>
          dsimp only
          exact ih _ _ hloop
        | some e => simpa using hloop
    · rw [if_pos (by simp [hen])]
      exact ih _ _ hinv

/-- Claim C5 (amended).  The Srv runner publishes only non-empty trimmed
text: every publish call in a run carries non-empty text (an empty trimmed
generation is skipped with a log line and no publish).  The P0 runner has no
such check: for an eligible review whose generation and publish succeed, it
issues the publish call and appends a report entry regardless of the
generated text — including the empty string. -/
theorem c5_empty_reply_amended :
    (∀ (c : Collab) (now : Int) (settings : List Setting) (pr : String × String),
        pr ∈ (runAutomation c now settings).2.1 → pr.2 ≠ "")
    ∧ (∀ (c : Collab) (s : Setting) (now : Int) (r : Review) (rest : List Review)
          (rep : List ReportEntry) (pubs : List (String × String)) (t : String),
        isEligibleP0 r s now = true →
        c.generate (promptP0 s r) = Except.ok t →
        c.publish r.name t = Except.ok () →
        loopReviewsP0 c s now (r :: rest) rep pubs =
          loopReviewsP0 c s now rest (rep ++ [entryP0 s r]) (pubs ++ [(r.name, t)])) := by
  constructor
  · intro c now settings pr hpr
    exact runSettingsSrv_pubs_nonempty c now settings [] [] (by simp) pr hpr
  · intro c s now r rest rep pubs t he hg hp
    have hts : skipTimeP0 s now r = false ∧ skipScopeUnreplied s r = false := by
      simpa [isEligibleP0] using he
    rw [loopReviewsP0]
    rw [if_neg (by simp [hts.1]), if_neg (by simp [hts.2])]
    simp only [hg, hp]

/-- Witness for C5: a successful Srv run records a non-empty publish, and
the P0 loop on an empty generation still publishes and reports. -/
theorem c5_empty_reply_amended_witness :
    ("Thank you!" : String) ≠ "" ∧
    loopReviewsP0 collabEmptyGen setAll 0 [revA] [] [] =
      loopReviewsP0 collabEmptyGen setAll 0 [] ([] ++ [entryP0 setAll revA]) ([] ++ [(revA.name, "")]) :=
  ⟨c5_empty_reply_amended.1 collabOk 0 [setAll] ("reviews/r1", "Thank you!") (by decide),
   c5_empty_reply_amended.2 collabEmptyGen setAll 0 revA [] [] [] "" (by decide) rfl rfl⟩

/-- Counterexample to C5 as stated: with a generator that returns the empty
string, the P0 runner still invokes the publisher (with empty text) and
appends a report entry for the review. -/
theorem c5_counterexample :
    (runAutomationForUser collabEmptyGen 0 [setAll]).1 = [entryP0 setAll revA] ∧
    (runAutomationForUser collabEmptyGen 0 [setAll]).2 = [(revA.name, "")] := by
  exact ⟨by decide, by decide⟩

/-- Claim C6 (amended).  In the P0 runner a failing location is isolated: a
location whose review fetch throws contributes nothing and the run over the
remaining locations is unchanged.  But the try/catch sits around the whole
per-location body, so a generation failure on one review ends that
location's batch, dropping its remaining reviews (keeping what was already
accumulated).  The Srv runner has no try/catch at all: an enabled location
whose fetch throws aborts the run, and the remaining locations are never
processed. -/
theorem c6_failure_isolation_amended :
    (∀ (c : Collab) (now : Int) (l1 l2 : List Setting) (b : Setting) (e : String),
        c.fetchReviews b.locationId = Except.error e →
        runAutomationForUser c now (l1 ++ b :: l2) = runAutomationForUser c now (l1 ++ l2))
    ∧ (∀ (c : Collab) (s : Setting) (now : Int) (r : Review) (rest : List Review)
          (rep : List ReportEntry) (pubs : List (String × String)) (e : String),
        isEligibleP0 r s now = true →
        c.generate (promptP0 s r) = Except.error e →
        loopReviewsP0 c s now (r :: rest) rep pubs = (rep, pubs))
    ∧ (∀ (c : Collab) (now : Int) (s : Setting) (rest : List Setting)
          (logs : List String) (pubs : List (String × String)) (e : String),
        s.isEnabled = true →
        c.fetchReviews s.locationId = Except.error e →
        runSettingsSrv c now (s :: rest) logs pubs = (logs, pubs, some e)) := by
  refine ⟨?_, ?_, ?_⟩
  · intro c now l1 l2 b e hf
    induction l1 with
    | nil =>
      rw [List.nil_append, List.nil_append]
      rw [runAutomationForUser]
      simp [runSettingP0, hf]
    | cons a l1 ih =>
      rw [List.cons_append, List.cons_append]
      rw [runAutomationForUser, runAutomationForUser, ih]
  · intro c s now r rest rep pubs e he hg
    have hts : skipTimeP0 s now r = false ∧ skipScopeUnreplied s r = false := by
      simpa [isEligibleP0] using he
    rw [loopReviewsP0]
    rw [if_neg (by simp [hts.1]), if_neg (by simp [hts.2])]
    simp only [hg]
  · intro c now s rest logs pubs e hen hf
    rw [runSettingsSrv]
    rw [if_neg (by simp [hen])]
    simp only [hf]

/-- Witness for C6: with a fetch that always throws, a bad middle location
disappears from a P0 run; a generation failure on the head review ends the
location's batch; and the Srv runner aborts at the first enabled location. -/
theorem c6_failure_isolation_amended_witness :
    runAutomationForUser collabFetchFail 0 ([setDisabled] ++ setAll :: [setKw]) =
      runAutomationForUser collabFetchFail 0 ([setDisabled] ++ [setKw]) ∧
    loopReviewsP0 collabGenFail setAll 0 (revA :: [revB]) [] [] = ([], []) ∧
    runSettingsSrv collabFetchFail 0 (setAll :: [setKw]) [] [] = ([], [], some "network") :=
  ⟨c6_failure_isolation_amended.1 collabFetchFail 0 [setDisabled] [setKw] setAll "network" rfl,
   c6_failure_isolation_amended.2.1 collabGenFail setAll 0 revA [revB] [] [] "boom"
     (by decide)
     rfl,
   c6_failure_isolation_amended.2.2 collabFetchFail 0 setAll [setKw] [] [] "network" rfl rfl⟩

/-- Counterexample to C6 as stated: the publisher throws for the first
review of the only location; the claim demands the second review of the
batch still be processed, but the P0 run produces no report entry at all,
although the second review alone would have produced one. -/
theorem c6_counterexample :
    (runAutomationForUser collabPubFailR1 0 [setAll]).1 = [] ∧
    (loopReviewsP0 collabPubFailR1 setAll 0 [revB] [] []).1 = [entryP0 setAll revB] := by
  exact ⟨by decide, by decide⟩

/-- Claim C7 (amended).  The P0 save-and-run route rejects an unknown user
with a 401 authorization error before saving anything, and for a known user
it always answers with the runner's report — per-location and per-review
failures are absorbed by the runner and never fail the call (the
collaborators are universally quantified, failing ones included).  The S1
save-and-run route, however, performs no user check: an unknown user makes
the handler throw a TypeError (a server error, not an authorization
rejection), and for a known user the S1 runner's first exception fails the
whole call. -/
theorem c7_save_and_run_amended :
    (∀ (db : String → Option (List Setting)) (c : Collab) (now : Int) (uid : String)
        (s : List Setting), db uid = none →
        saveAndRunP0 db c now uid s =
          { resp := SaveRunResp.unauthorized "User not found", saved := none })
    ∧ (∀ (db : String → Option (List Setting)) (c : Collab) (now : Int) (uid : String)
          (s x : List Setting), db uid = some x →
        saveAndRunP0 db c now uid s =
          { resp := SaveRunResp.okReport (runAutomationForUser c now s).1, saved := some s })
    ∧ (∀ (db : String → Option (List Setting)) (c : Collab) (uid : String)
          (s : List Setting), db uid = none →
        saveAndRunS1 db c uid s =
          { resp := SaveRunResp.serverError "TypeError: Cannot set properties of null"
            saved := none })
    ∧ (∀ (db : String → Option (List Setting)) (c : Collab) (uid : String)
          (s x : List Setting) (logs : List String) (pubs : List (String × String))
          (e : String), db uid = some x →
        runAutomationS1 c s = (logs, pubs, some e) →
        (saveAndRunS1 db c uid s).resp = SaveRunResp.serverError e) := by
  refine ⟨?_, ?_, ?_, ?_⟩
  · intro db c now uid s h
    simp [saveAndRunP0, h]
  · intro db c now uid s x h
    simp [saveAndRunP0, h]
  · intro db c uid s h
    simp [saveAndRunS1, h]
  · intro db c uid s x logs pubs e h hrun
    simp [saveAndRunS1, h, hrun]

/-- Witness for C7: the unknown user is rejected by P0 with 401 and nothing
saved; the known user gets a report even with failing collaborators; the S1
route crashes for the unknown user and propagates a fetch failure for the
known one. -/
theorem c7_save_and_run_amended_witness :
    saveAndRunP0 emptyDb collabOk 0 "u1" [setAll] =
      { resp := SaveRunResp.unauthorized "User not found", saved := none } ∧
    saveAndRunP0 oneUserDb collabFetchFail 0 "u1" [setAll] =
      { resp := SaveRunResp.okReport (runAutomationForUser collabFetchFail 0 [setAll]).1
        saved := some [setAll] } ∧
    saveAndRunS1 emptyDb collabOk "u1" [setAll] =
      { resp := SaveRunResp.serverError "TypeError: Cannot set properties of null"
        saved := none } ∧
    (saveAndRunS1 oneUserDb collabFetchFail "u1" [setAll]).resp =
      SaveRunResp.serverError "network" :=
  ⟨c7_save_and_run_amended.1 emptyDb collabOk 0 "u1" [setAll] rfl,
   c7_save_and_run_amended.2.1 oneUserDb collabFetchFail 0 "u1" [setAll] [setAll] (by decide),
   c7_save_and_run_amended.2.2.1 emptyDb collabOk "u1" [setAll] rfl,
   c7_save_and_run_amended.2.2.2 oneUserDb collabFetchFail "u1" [setAll] [setAll] [] []
     "network" (by decide) (by decide)⟩

/-- Counterexample to C7 as stated: the S1 save-and-run route answers the
unknown user with a thrown TypeError (server error), not an
authorization-style rejection, and for a known user a mere per-location
fetch failure fails the whole call. -/
theorem c7_counterexample :
    (saveAndRunS1 emptyDb collabOk "u1" [setAll]).resp =
      SaveRunResp.serverError "TypeError: Cannot set properties of null" ∧
    (saveAndRunS1 oneUserDb collabFetchFail "u1" [setAll]).resp =
      SaveRunResp.serverError "network" := by
  exact ⟨by decide, by decide⟩

/-- The S1 runner never throws when every location fetch yields an empty
page: there is nothing to generate or publish. -/
theorem runSettingsS1_noReviews_ok :
    ∀ (l : List Setting) (logs : List String) (pubs : List (String × String)),
      (runSettingsS1 collabNoReviews l logs pubs).2.2 = none := by
  intro l
  induction l with
  | nil => intro logs pubs; rfl
  | cons s rest ih =>
    intro logs pubs
    rw [runSettingsS1]
    show (runSettingsS1 collabNoReviews rest logs pubs).2.2 = none
    exact ih logs pubs

/-- Claim C8 (amended).  The P0 cron invokes the runner exactly once per
user having at least one enabled setting, for no other user, and returns
that count.  The S1 cron instead invokes the runner for every user whose
settings list is non-empty — enabled or not — and, when no run throws,
processes exactly those users (it returns no count).  The Srv cron selects
the users with an enabled setting, but a run that throws for one user stops
the iteration: the remaining users are never processed (and no count is
returned). -/
theorem c8_bulk_run_amended :
    (∀ (c : Collab) (now : Int) (db : List UserRec),
        (cronP0 c now db).1 =
          (db.filter (fun u => u.settings.any (fun s => s.isEnabled))).length ∧
        (cronP0 c now db).2.1 =
          (db.filter (fun u => u.settings.any (fun s => s.isEnabled))).map (fun u => u.uid))
    ∧ (∀ (c : Collab),
        (∀ ss : List Setting, (runAutomationS1 c ss).2.2 = none) →
        ∀ db : List UserRec,
          cronS1 c db = ((db.filter (fun u => u.settings.length != 0)).map (fun u => u.uid), none))
    ∧ (∀ (c : Collab) (now : Int) (u : UserRec) (rest : List UserRec) (logs : List String)
          (pubs : List (String × String)) (e : String),
        u.settings.any (fun s => s.isEnabled) = true →
        runAutomation c now u.settings = (logs, pubs, some e) →
        cronS2 c now (u :: rest) = ([u.uid], some e)) := by
  refine ⟨?_, ?_, ?_⟩
  · intro c now db
    induction db with
    | nil => exact ⟨rfl, rfl⟩
    | cons u rest ih =>
      by_cases hu : u.settings.any (fun s => s.isEnabled) = true
      · rw [cronP0]
        rw [if_pos hu, List.filter_cons_of_pos (by simpa using hu)]
        exact ⟨by simp [ih.1], by simp [ih.2]⟩
      · rw [cronP0]
        rw [if_neg hu, List.filter_cons_of_neg (by simpa using hu)]
        exact ih
  · intro c hok db
    induction db with
    | nil => rfl
    | cons u rest ih =>
      by_cases hn : (u.settings.length != 0) = true
      · rcases hr : runAutomationS1 c u.settings with ⟨logs, pubs, err⟩
        have herr : err = none := by
          have := hok u.settings
          rw [hr] at this
          exact this
        subst herr
        rw [cronS1]
        rw [if_pos hn, hr]
        rw [List.filter_cons_of_pos (by simpa using hn)]
        simp [ih]
      · rw [cronS1]
        rw [if_neg hn, List.filter_cons_of_neg (by simpa using hn)]
        exact ih
  · intro c now u rest logs pubs e hu hrun
    unfold cronS2
    rw [List.filter_cons_of_pos (by simpa using hu)]
    rw [cronUsersS2, hrun]

/-- Witness for C8: the P0 cron counts exactly the one enabled user of two;
the S1 cron with empty review pages processes every user with a non-empty
settings list; the Srv cron stops at the first user when that user's run
throws, never reaching the second. -/
theorem c8_bulk_run_amended_witness :
    (cronP0 collabOk 0 [uEnabledA, uDisabled]).1 =
      (([uEnabledA, uDisabled] : List UserRec).filter
        (fun u => u.settings.any (fun s => s.isEnabled))).length ∧
    cronS1 collabNoReviews [uDisabled] =
      ((([uDisabled] : List UserRec).filter
        (fun u => u.settings.length != 0)).map (fun u => u.uid), none) ∧
    cronS2 collabFetchFail 0 [uEnabledA, uEnabledB] = (["u-a"], some "network") :=
  ⟨(c8_bulk_run_amended.1 collabOk 0 [uEnabledA, uDisabled]).1,
   c8_bulk_run_amended.2.1 collabNoReviews
     (fun ss => runSettingsS1_noReviews_ok (ss.filter (fun l => l.isEnabled)) [] []) [uDisabled],
   c8_bulk_run_amended.2.2 collabFetchFail 0 uEnabledA [uEnabledB] [] [] "network"
     (by decide) (by decide)⟩

/-- Counterexample to C8 as stated: a user whose only setting is disabled
still gets an S1 runner invocation from the S1 cron (the claim allows
invocations only for users with at least one enabled setting). -/
theorem c8_counterexample :
    (uDisabled.settings.any (fun s => s.isEnabled)) = false ∧
    (cronS1 collabOk [uDisabled]).1 = ["u-dis"] := by
  exact ⟨by decide, by decide⟩

end ReviewMate
